import Mathlib

/-!
Shallow embedding of the translation unit
src/internal/whisper_static/whisper_static.c.

The unit is a unity-build composition file: it consists solely of comments,
blank lines, three #define directives for implementation-activation flags and
three #include directives for library interface headers.  We embed the file
line by line as the C preprocessor sees it; the claims about the composition
are stated over the resulting sequence of preprocessor actions, over the
defined-flag state the preprocessor reaches, and (where the surrounding build
is concerned) over a link-stage model taken from the specification.
-/

namespace WhisperStatic

/-- One line of a C translation unit, as relevant to the preprocessor and to
the symbols the unit contributes on its own: a comment line, a blank line, a
#define of an object-like flag, an #undef of a flag, an #include of a header,
or a C-level declaration or definition contributed by the unit itself (a
function, variable, type, or similar exported name). -/
inductive CLine where
  | comment (text : String)
  | blank
  | defineDirective (flag : String)
  | undefDirective (flag : String)
  | includeDirective (header : String)
  | declaration (name : String)
  deriving DecidableEq, Repr

/-- The translation unit src/internal/whisper_static/whisper_static.c,
transcribed line by line. -/
def whisper_static_c : List CLine :=
  [ CLine.comment "This file is a wrapper to include all necessary whisper source files directly",
    CLine.comment "This allows us to build a truly static binary without external dependencies",
    CLine.blank,
    CLine.comment "Include the whisper implementation directly",
    CLine.defineDirective "WHISPER_IMPLEMENTATION",
    CLine.includeDirective "whisper.h",
    CLine.blank,
    CLine.comment "Include the GGML implementation directly",
    CLine.defineDirective "GGML_IMPLEMENTATION",
    CLine.includeDirective "ggml.h",
    CLine.blank,
    CLine.comment "Include the GGML allocation implementation directly",
    CLine.defineDirective "GGML_ALLOC_IMPLEMENTATION",
    CLine.includeDirective "ggml-alloc.h",
    CLine.blank,
    CLine.comment "No need to include other files as they are included by the above headers" ]

/-- The three implementation-activation flags the unit defines. -/
def implFlags : List String :=
  ["WHISPER_IMPLEMENTATION", "GGML_IMPLEMENTATION", "GGML_ALLOC_IMPLEMENTATION"]

/-- The three library interface headers the unit includes. -/
def ifaceHeaders : List String :=
  ["whisper.h", "ggml.h", "ggml-alloc.h"]

/-- A preprocessor action: defining a flag, undefining a flag, or including a
header.  Comments and blank lines perform no action. -/
inductive PPAction where
  | setFlag (flag : String)
  | unsetFlag (flag : String)
  | includeHeader (header : String)
  deriving DecidableEq, Repr

/-- The preprocessor action a line performs, when it performs one. -/
def lineAction : CLine → Option PPAction
  | CLine.defineDirective f => some (PPAction.setFlag f)
  | CLine.undefDirective f => some (PPAction.unsetFlag f)
  | CLine.includeDirective h => some (PPAction.includeHeader h)
  | _ => none

/-- The sequence of preprocessor actions of a translation unit. -/
def ppActions (u : List CLine) : List PPAction :=
  u.filterMap lineAction

/-- The preprocessor action sequence of whisper_static.c. -/
def whisper_static_actions : List PPAction :=
  ppActions whisper_static_c

/-- Indices (counting from i) of the actions satisfying p. -/
def idxsFrom (p : PPAction → Bool) : Nat → List PPAction → List Nat
  | _, [] => []
  | i, a :: as =>
      if p a then i :: idxsFrom p (i + 1) as else idxsFrom p (i + 1) as

/-- Indices of the actions satisfying p in the action sequence. -/
def idxs (p : PPAction → Bool) (as : List PPAction) : List Nat :=
  idxsFrom p 0 as

/-- Whether an action defines the given flag. -/
def isSetFlag (f : String) : PPAction → Bool
  | PPAction.setFlag g => g == f
  | _ => false

/-- Whether an action includes the given header. -/
def isInclude (h : String) : PPAction → Bool
  | PPAction.includeHeader g => g == h
  | _ => false

/-- Both kinds of action occur, and every action satisfying p occurs strictly
before every action satisfying q. -/
def allBefore (p q : PPAction → Bool) (as : List PPAction) : Bool :=
  !(idxs p as).isEmpty && !(idxs q as).isEmpty &&
    ((idxs p as).all fun i => (idxs q as).all fun j => decide (i < j))

/-- Exactly one action in the sequence satisfies p. -/
def occursOnce (p : PPAction → Bool) (as : List PPAction) : Bool :=
  (idxs p as).length == 1

/-- Every action satisfying p is immediately followed by an action satisfying
q: no other directive of any kind stands between the two. -/
def immediatelyFollowed (p q : PPAction → Bool) (as : List PPAction) : Bool :=
  (idxs p as).all fun i => (idxs q as).any fun j => j == i + 1

/-- Actions that activate or include the inference engine (whisper). -/
def isEngineAction (a : PPAction) : Bool :=
  isSetFlag "WHISPER_IMPLEMENTATION" a || isInclude "whisper.h" a

/-- Actions that make the tensor runtime's interface visible in this unit, as
the claim words it: defining the runtime's activation flag and including the
runtime's interface header ggml.h. -/
def isRuntimeVisibilityAction (a : PPAction) : Bool :=
  isSetFlag "GGML_IMPLEMENTATION" a || isInclude "ggml.h" a

/-- The claim of C1 as stated: every engine-activating or engine-including
action occurs strictly after the runtime interface-visibility actions. -/
def engineAfterRuntimeInterface (as : List PPAction) : Bool :=
  (idxs isEngineAction as).all fun i =>
    (idxs isRuntimeVisibilityAction as).all fun j => decide (j < i)

/-- Whether a line is a C-level declaration contributed by the unit itself. -/
def isDeclLine : CLine → Bool
  | CLine.declaration _ => true
  | _ => false

/-- Whether a line undefines a flag. -/
def isUndefLine : CLine → Bool
  | CLine.undefDirective _ => true
  | _ => false

/-- A line the composer is allowed to contain without introducing an interface
of its own: a comment, a blank, a define of one of the three activation flags,
or an include of one of the three interface headers. -/
def composerLineOk : CLine → Bool
  | CLine.comment _ => true
  | CLine.blank => true
  | CLine.defineDirective f => implFlags.contains f
  | CLine.includeDirective h => ifaceHeaders.contains h
  | _ => false

/-- How many times a unit defines the given flag. -/
def flagSetCount (u : List CLine) (f : String) : Nat :=
  u.count (CLine.defineDirective f)

/-- How many times the given flag is defined across a whole link set. -/
def linkFlagCount (units : List (List CLine)) (f : String) : Nat :=
  (units.map fun u => flagSetCount u f).sum

/-- Modelled from the spec: the link set of the final binary is not part of
src/ (only this composition unit is); per the spec no other translation unit
in the link target activates these flags, so the link set is modelled as this
unit alone. -/
def specLinkSet : List (List CLine) :=
  [whisper_static_c]

/-- Outcome of the link stage for one activation flag. -/
inductive LinkResult where
  | undefinedSymbol
  | duplicateSymbol
  | linked
  deriving DecidableEq, Repr

/-- Modelled from the spec: the linker itself is not code of this repository;
the spec states that a flag set zero times across the link set yields an
undefined-symbol failure, a flag set two or more times yields a
duplicate-symbol failure, and only a flag set exactly once links. -/
def linkOutcome (units : List (List CLine)) (f : String) : LinkResult :=
  if linkFlagCount units f = 0 then LinkResult.undefinedSymbol
  else if 2 ≤ linkFlagCount units f then LinkResult.duplicateSymbol
  else LinkResult.linked

/-- The flags whose implementations a compile of the unit materializes, in
order: one symbol group per activation flag defined by the unit. -/
def materializedFlags (u : List CLine) : List String :=
  u.filterMap fun l =>
    match l with
    | CLine.defineDirective f => some f
    | _ => none

/-- The set of flags defined once the preprocessor has processed the given
lines, starting from the flags defined initially (the configuration). -/
def definedAfter (init : List String) : List CLine → List String
  | [] => init
  | CLine.defineDirective f :: ls => definedAfter (f :: init) ls
  | CLine.undefDirective f :: ls => definedAfter (init.filter fun g => g != f) ls
  | _ :: ls => definedAfter init ls

/-- Summing a Nat-valued map over a list in which x occurs exactly once and
every other element maps to zero gives the value at x. -/
theorem sum_map_of_count_one {α : Type} [BEq α] [LawfulBEq α] (g : α → Nat) :
    ∀ (l : List α) (x : α), l.count x = 1 →
      (∀ y ∈ l, y ≠ x → g y = 0) → (l.map g).sum = g x := by
  intro l
  induction l with
  | nil => intro x hc _; simp at hc
  | cons a t ih =>
    intro x hc hz
    by_cases hax : a = x
    · subst hax
      have ht : t.count a = 0 := by
        have hcc : (a :: t).count a = t.count a + 1 := List.count_cons_self a t
        omega
      have hz0 : ∀ y ∈ t, g y = 0 := by
        intro y hy
        have hyx : y ≠ a := by
          intro hya
          subst hya
          have hpos : 0 < t.count y := List.count_pos_iff.mpr hy
          omega
        exact hz y (List.mem_cons_of_mem a hy) hyx
      have hsum : (t.map g).sum = 0 := by
        refine List.sum_eq_zero ?_
        intro n hn
        obtain ⟨y, hy, rfl⟩ := List.mem_map.mp hn
        exact hz0 y hy
      simp [hsum]
    · have hga : g a = 0 := hz a (List.mem_cons_self a t) hax
      have hct : t.count x = 1 := by
        have hne : (a == x) = false := beq_eq_false_iff_ne.mpr hax
        simp [List.count_cons, hne] at hc
        exact hc
      have hrest : ∀ y ∈ t, y ≠ x → g y = 0 := fun y hy =>
        hz y (List.mem_cons_of_mem a hy)
      have hih := ih x hct hrest
      simp [hga, hih]

/-- C1 as stated fails on the code: in whisper_static.c the engine's flag is
defined and its header included before the runtime's interface-visibility
actions, not after them. -/
theorem c1_counterexample :
    engineAfterRuntimeInterface whisper_static_actions = false := by decide

/-- C1 amended: in the preprocessor action sequence of whisper_static.c, every
action that activates or includes the inference engine occurs strictly before
the tensor runtime's interface-visibility actions (the definition of the
runtime's flag and the inclusion of ggml.h), not after them. -/
theorem c1_engine_before_runtime_interface :
    allBefore isEngineAction isRuntimeVisibilityAction whisper_static_actions
      = true := by decide

/-- C2: each of the three activation flags is set exactly once in
whisper_static.c, and in any link set in which whisper_static.c occurs exactly
once and no other unit sets the flag, the flag is set exactly once across the
whole link set. -/
theorem c2_exactly_once (units : List (List CLine)) (f : String)
    (hf : f ∈ implFlags)
    (hone : units.count whisper_static_c = 1)
    (hothers : ∀ u ∈ units, u ≠ whisper_static_c → flagSetCount u f = 0) :
    flagSetCount whisper_static_c f = 1 ∧ linkFlagCount units f = 1 := by
  have hc : flagSetCount whisper_static_c f = 1 := by
    simp [implFlags] at hf
    rcases hf with rfl | rfl | rfl <;> decide
  refine ⟨hc, ?_⟩
  unfold linkFlagCount
  rw [sum_map_of_count_one (fun u => flagSetCount u f) units whisper_static_c
    hone hothers]
  exact hc

/-- C2 witness: the modelled link set, with the flag GGML_IMPLEMENTATION. -/
theorem c2_exactly_once_witness :
    flagSetCount whisper_static_c "GGML_IMPLEMENTATION" = 1 ∧
      linkFlagCount specLinkSet "GGML_IMPLEMENTATION" = 1 :=
  c2_exactly_once specLinkSet "GGML_IMPLEMENTATION" (by decide) (by decide)
    (by decide)

/-- C3: for each library included by the unit, the define of that library's
activation flag strictly precedes the include of the corresponding header. -/
theorem c3_flag_before_header :
    (allBefore (isSetFlag "WHISPER_IMPLEMENTATION") (isInclude "whisper.h")
        whisper_static_actions &&
      allBefore (isSetFlag "GGML_IMPLEMENTATION") (isInclude "ggml.h")
        whisper_static_actions &&
      allBefore (isSetFlag "GGML_ALLOC_IMPLEMENTATION")
        (isInclude "ggml-alloc.h") whisper_static_actions) = true := by decide

/-- C4: in the link-stage model taken from the spec, a flag set zero times
across the link set yields exactly an undefined-symbol failure, a flag set two
or more times yields exactly a duplicate-symbol failure, a binary is produced
exactly when the flag is set once, and whisper_static.c contributes no
declaration of its own from which a run-time error could arise. -/
theorem c4_failures_link_time_only (units : List (List CLine)) (f : String) :
    (linkOutcome units f = LinkResult.undefinedSymbol ↔
        linkFlagCount units f = 0) ∧
      (linkOutcome units f = LinkResult.duplicateSymbol ↔
        2 ≤ linkFlagCount units f) ∧
      (linkOutcome units f = LinkResult.linked ↔ linkFlagCount units f = 1) ∧
      (whisper_static_c.all fun l => !(isDeclLine l)) = true := by
  have hdecl : (whisper_static_c.all fun l => !(isDeclLine l)) = true := by
    decide
  rcases Nat.lt_trichotomy (linkFlagCount units f) 1 with h | h | h
  · have h0 : linkFlagCount units f = 0 := Nat.lt_one_iff.mp h
    refine ⟨?_, ?_, ?_, hdecl⟩ <;> simp [linkOutcome, h0]
  · refine ⟨?_, ?_, ?_, hdecl⟩ <;> simp [linkOutcome, h]
  · have h0 : ¬ linkFlagCount units f = 0 := by omega
    have h2 : 2 ≤ linkFlagCount units f := by omega
    refine ⟨?_, ?_, ?_, hdecl⟩ <;> simp [linkOutcome, h0, h2]
    omega

/-- C5: the inclusion of the tensor runtime's main interface ggml.h strictly
precedes both the definition of the allocator flag and the inclusion of the
allocator interface ggml-alloc.h. -/
theorem c5_runtime_interface_before_alloc :
    (allBefore (isInclude "ggml.h") (isSetFlag "GGML_ALLOC_IMPLEMENTATION")
        whisper_static_actions &&
      allBefore (isInclude "ggml.h") (isInclude "ggml-alloc.h")
        whisper_static_actions) = true := by decide

/-- C6: every line of whisper_static.c is a comment, a blank, a define of one
of the three activation flags, or an include of one of the three interface
headers; in particular the unit contributes no declaration, no exported name
and no flag of its own beyond the three activation flags. -/
theorem c6_no_own_interface :
    whisper_static_c.all composerLineOk = true := by decide

/-- C7: compiling the composition unit is deterministic: two builds of
identical inputs materialize the same symbols, with identical multiplicities,
and the unit's own materialized flags contain no duplicate. -/
theorem c7_deterministic_build (ua ub : List CLine) (h : ua = ub) :
    materializedFlags ua = materializedFlags ub ∧
      (∀ s : String,
        (materializedFlags ua).count s = (materializedFlags ub).count s) ∧
      (materializedFlags whisper_static_c).Nodup := by
  subst h
  exact ⟨rfl, fun _ => rfl, by decide⟩

/-- C7 witness: two builds of whisper_static.c itself. -/
theorem c7_deterministic_build_witness :
    materializedFlags whisper_static_c = materializedFlags whisper_static_c ∧
      (∀ s : String,
        (materializedFlags whisper_static_c).count s =
          (materializedFlags whisper_static_c).count s) ∧
      (materializedFlags whisper_static_c).Nodup :=
  c7_deterministic_build whisper_static_c whisper_static_c rfl

/-- C8: each of the three interface headers is included exactly once by the
unit, and each activation-flag define is immediately followed by the include
of its corresponding header, with no intervening directive. -/
theorem c8_headers_once_adjacent :
    (occursOnce (isInclude "whisper.h") whisper_static_actions &&
      occursOnce (isInclude "ggml.h") whisper_static_actions &&
      occursOnce (isInclude "ggml-alloc.h") whisper_static_actions &&
      immediatelyFollowed (isSetFlag "WHISPER_IMPLEMENTATION")
        (isInclude "whisper.h") whisper_static_actions &&
      immediatelyFollowed (isSetFlag "GGML_IMPLEMENTATION")
        (isInclude "ggml.h") whisper_static_actions &&
      immediatelyFollowed (isSetFlag "GGML_ALLOC_IMPLEMENTATION")
        (isInclude "ggml-alloc.h") whisper_static_actions) = true := by decide

/-- C9: the unit composes the inference engine first: the engine's flag is
defined and its header included strictly before the runtime's flag is defined
and before the runtime's header is included. -/
theorem c9_engine_composed_first :
    (allBefore (isSetFlag "WHISPER_IMPLEMENTATION")
        (isSetFlag "GGML_IMPLEMENTATION") whisper_static_actions &&
      allBefore (isSetFlag "WHISPER_IMPLEMENTATION") (isInclude "ggml.h")
        whisper_static_actions &&
      allBefore (isInclude "whisper.h") (isSetFlag "GGML_IMPLEMENTATION")
        whisper_static_actions &&
      allBefore (isInclude "whisper.h") (isInclude "ggml.h")
        whisper_static_actions) = true := by decide

/-- C10: whatever flags the configuration defines initially, after the
preprocessor has processed whisper_static.c all three activation flags are
defined, and the unit never undefines a flag. -/
theorem c10_flags_always_defined (init : List String) :
    "WHISPER_IMPLEMENTATION" ∈ definedAfter init whisper_static_c ∧
      "GGML_IMPLEMENTATION" ∈ definedAfter init whisper_static_c ∧
      "GGML_ALLOC_IMPLEMENTATION" ∈ definedAfter init whisper_static_c ∧
      (whisper_static_c.all fun l => !(isUndefLine l)) = true := by
  refine ⟨?_, ?_, ?_, by decide⟩ <;>
    simp [whisper_static_c, definedAfter]

end WhisperStatic
